import Mathlib

/-!
# Package `eventsearcher`: plugin boundary of the events search plugin

Shallow embedding of `plugin/eventsearcher/eventsearcher.go`.

Conventions of the embedding:

* Go `string` is `String`; a slice is a `List` (a nil slice and an empty slice are both `[]`).
* Go `int64`, `int32` and `int` are `Int`; the declared widths are kept as the
  well-formedness predicates `inInt64`, `inInt32`, `inInt` (no arithmetic is done on them here).
* An interface value or pointer that may be nil is an `Option`; `nil` is `none`.
* A Go `error` result is `Option Error`, `none` being the nil error.
* Pointer arguments (`p`, `broker`, `s`, `c`) are taken at their pointees.
* A call that aborts the process instead of returning has the result `none`.
* The package-level variables `Handshake` and `PluginMap` are mutable in Go, so the two
  methods are written in state-passing style over `PackageVars`.
-/

/-! ## Types of the libraries the package is built on -/

/-- Go `error` values, reduced to their message. -/
structure Error where
  msg : String
deriving DecidableEq, Repr

/-- Struct `plugin.HandshakeConfig` of go-plugin: the three fields the source sets. -/
structure plugin.HandshakeConfig where
  ProtocolVersion : Nat
  MagicCookieKey : String
  MagicCookieValue : String
deriving DecidableEq, Repr

/-- Interface `plugin.Plugin` of go-plugin (its net/rpc flavour). The package never calls it;
an implementation is identified by a tag. -/
structure plugin.Plugin where
  tag : Nat
deriving DecidableEq, Repr

/-- Type `plugin.GRPCBroker` of go-plugin. Neither method reads or writes it; a broker is
identified by a handle. -/
structure plugin.GRPCBroker where
  handle : Nat
deriving DecidableEq, Repr

/-- Type `context.Context`: whether it is already cancelled and its deadline, if any. -/
structure context.Context where
  cancelled : Bool
  deadline : Option Int
deriving DecidableEq, Repr

/-- Type `grpc.ClientConn`: a connection is identified by its target address. -/
structure grpc.ClientConn where
  target : String
deriving DecidableEq, Repr

/-! ## Constants and package-level values -/

/-- PluginName defines the name for an events search plugin. -/
def PluginName : String := "eventsearcher"

/-- Handshake is a common handshake that is shared by plugin and host
(the initial value of the package variable). -/
def Handshake : plugin.HandshakeConfig :=
  { ProtocolVersion := 1
    MagicCookieKey := "SFTPGO_PLUGIN_EVENTSEARCHER"
    MagicCookieValue := "2b523805-0279-471c-895e-6c0d39002ca4" }

/-! ## Search filters -/

/-- Range of a Go `int64`. -/
def inInt64 (x : Int) : Prop := -(2 : Int) ^ 63 ≤ x ∧ x < (2 : Int) ^ 63

/-- Range of a Go `int32`. -/
def inInt32 (x : Int) : Prop := -(2 : Int) ^ 31 ≤ x ∧ x < (2 : Int) ^ 31

/-- Range of a Go `int` on a 64-bit platform. -/
def inInt (x : Int) : Prop := inInt64 x

instance (x : Int) : Decidable (inInt64 x) := by unfold inInt64; infer_instance
instance (x : Int) : Decidable (inInt32 x) := by unfold inInt32; infer_instance
instance (x : Int) : Decidable (inInt x) := by unfold inInt; infer_instance

/-- CommonSearchParams defines common parameters for both filesystem and provider search. -/
structure CommonSearchParams where
  StartTimestamp : Int := 0
  EndTimestamp : Int := 0
  Username : String := ""
  IP : String := ""
  InstanceIDs : List String := []
  FromID : String := ""
  Limit : Int := 0
  Order : Int := 0
  Role : String := ""
deriving DecidableEq, Repr

/-- FsEventSearch defines the fields for a filesystem event search. -/
structure FsEventSearch extends CommonSearchParams where
  Actions : List String := []
  SSHCmd : String := ""
  Protocols : List String := []
  Statuses : List Int := []
  FsProvider : Int := 0
  Bucket : String := ""
  Endpoint : String := ""
deriving DecidableEq, Repr

/-- ProviderEventSearch defines the fields for a provider event search. -/
structure ProviderEventSearch extends CommonSearchParams where
  Actions : List String := []
  ObjectName : String := ""
  ObjectTypes : List String := []
  OmitObjectData : Bool := false
deriving DecidableEq, Repr

/-- LogEventSearch defines the fields for a log event search. -/
structure LogEventSearch extends CommonSearchParams where
  Events : List Int := []
  Protocols : List String := []
deriving DecidableEq, Repr

/-- The values a `CommonSearchParams` can hold in Go: every integer field within its
declared width. -/
def CommonSearchParams.wf (f : CommonSearchParams) : Prop :=
  inInt64 f.StartTimestamp ∧ inInt64 f.EndTimestamp ∧ inInt f.Limit ∧ inInt f.Order

/-- The values an `FsEventSearch` can hold in Go. -/
def FsEventSearch.wf (f : FsEventSearch) : Prop :=
  f.toCommonSearchParams.wf ∧ (∀ x ∈ f.Statuses, inInt32 x) ∧ inInt f.FsProvider

/-- The values a `ProviderEventSearch` can hold in Go. -/
def ProviderEventSearch.wf (f : ProviderEventSearch) : Prop :=
  f.toCommonSearchParams.wf

/-- The values a `LogEventSearch` can hold in Go. -/
def LogEventSearch.wf (f : LogEventSearch) : Prop :=
  f.toCommonSearchParams.wf ∧ ∀ x ∈ f.Events, inInt32 x

instance (f : CommonSearchParams) : Decidable f.wf := by
  unfold CommonSearchParams.wf; infer_instance
instance (f : FsEventSearch) : Decidable f.wf := by
  unfold FsEventSearch.wf; infer_instance
instance (f : ProviderEventSearch) : Decidable f.wf := by
  unfold ProviderEventSearch.wf; infer_instance
instance (f : LogEventSearch) : Decidable f.wf := by
  unfold LogEventSearch.wf; infer_instance

/-! ## The Searcher capability and the plugin -/

/-- Searcher defines the interface for events search plugins. Each method returns the Go pair
`([]byte, error)`; bytes are numbers below 256. -/
structure Searcher where
  SearchFsEvents : FsEventSearch → List (Fin 256) × Option Error
  SearchProviderEvents : ProviderEventSearch → List (Fin 256) × Option Error
  SearchLogEvents : LogEventSearch → List (Fin 256) × Option Error

/-- Plugin defines the implementation to serve/connect to a event search plugin: the embedded
`plugin.Plugin` interface (field `embeddedPlugin`, Go names it after its type) and the `Impl`
field, both nil in the zero value `Plugin{}`. -/
structure Plugin where
  embeddedPlugin : Option plugin.Plugin := none
  Impl : Option Searcher := none

/-- PluginMap is the map of plugins we can dispense (the initial value of the package
variable). The Go map literal is the list of its key/value pairs; the value `&Plugin{}` is
taken at its pointee. -/
def PluginMap : List (String × Plugin) :=
  [(PluginName, {})]

/-- The package-level variables of `eventsearcher`. -/
structure PackageVars where
  Handshake : plugin.HandshakeConfig
  PluginMap : List (String × Plugin)

/-- The package variables as the Go runtime sets them up before `main` runs. -/
def initialPackageVars : PackageVars :=
  { Handshake := Handshake, PluginMap := PluginMap }

/-- Modelled from the spec: the struct `GRPCServer` of this package, declared in a file that is
not among the sources at hand. The spec's server-side adapter "holds no state of its own
besides the reference to the wrapped Searcher"; the source sets its field `Impl`. -/
structure GRPCServer where
  Impl : Option Searcher

/-- Type `grpc.Server`, reduced to what registering the Searcher service reads and writes:
`serve`, set once `Serve` has been called, and the implementation held under the Searcher
service name, if any (a server holds at most one implementation per service name). -/
structure grpc.Server where
  serve : Bool
  searcher : Option GRPCServer

/-- Function `grpc.NewServer`: a server that is not serving and has no service registered. -/
def grpc.NewServer : grpc.Server :=
  { serve := false, searcher := none }

/-- Method `RegisterService` of `grpc.Server`, at the Searcher service descriptor. It is fatal
(the process exits, result `none`) when `Serve` has already been called and when the service
name is already registered; otherwise the implementation is stored under the service name. -/
def grpc.Server.RegisterService (s : grpc.Server) (srv : GRPCServer) : Option grpc.Server :=
  if s.serve then none
  else
    match s.searcher with
    | some _ => none
    | none => some { s with searcher := some srv }

/-- Modelled from the spec: `proto.RegisterSearcherServer`, generated code of this
repository's package `proto` that is not among the sources at hand. The server side
"expose[s]" the wrapped implementation: the generated function hands the adapter to the
server's `RegisterService` under the Searcher service descriptor.
Package `proto` is imported by `eventsearcher`, so it cannot name `Handshake` or `PluginMap`. -/
def proto.RegisterSearcherServer (s : grpc.Server) (srv : GRPCServer) : Option grpc.Server :=
  s.RegisterService srv

/-- Modelled from the spec: the client stub `proto.SearcherClient` of the generated package
`proto`: it forwards "each call over the network connection" it was built on. -/
structure proto.SearcherClient where
  cc : grpc.ClientConn
deriving DecidableEq, Repr

/-- Modelled from the spec: `proto.NewSearcherClient`, the generated constructor of the client
stub on a connection. -/
def proto.NewSearcherClient (c : grpc.ClientConn) : proto.SearcherClient :=
  { cc := c }

/-- Modelled from the spec: the struct `GRPCClient` of this package, declared in a file that is
not among the sources at hand; the source sets its field `client`. -/
structure GRPCClient where
  client : proto.SearcherClient
deriving DecidableEq, Repr

/-- GRPCServer defines the GRPC server implementation for this plugin.
Result: `none` when registration aborts the process; otherwise the returned error, the server
after the call and the package variables after the call. -/
def Plugin.GRPCServer (p : Plugin) (_broker : plugin.GRPCBroker) (s : grpc.Server)
    (g : PackageVars) : Option (Option Error × grpc.Server × PackageVars) :=
  match proto.RegisterSearcherServer s { Impl := p.Impl } with
  | none => none
  | some s' => some (none, s', g)

/-- GRPCClient defines the GRPC client implementation for this plugin.
Result: the returned `interface{}` (a `*GRPCClient`, `none` when nil), the returned error, the
package variables after the call. -/
def Plugin.GRPCClient (_p : Plugin) (_ctx : context.Context) (_broker : plugin.GRPCBroker)
    (c : grpc.ClientConn) (g : PackageVars) : Option GRPCClient × Option Error × PackageVars :=
  (some { client := proto.NewSearcherClient c }, none, g)

/-- A Searcher whose three searches return no bytes and a nil error: a concrete
implementation to call the factories with. -/
def emptySearcher : Searcher :=
  { SearchFsEvents := fun _ => ([], none)
    SearchProviderEvents := fun _ => ([], none)
    SearchLogEvents := fun _ => ([], none) }

/-! ## Predicates used in the statements -/

/-- A hexadecimal digit: `0`-`9`, `a`-`f` or `A`-`F`. -/
def isHexDigit (c : Char) : Bool :=
  ('0' ≤ c && c ≤ '9') || ('a' ≤ c && c ≤ 'f') || ('A' ≤ c && c ≤ 'F')

/-- A lowercase ASCII letter: `a`-`z`. -/
def isLowerAscii (c : Char) : Bool :=
  'a' ≤ c && c ≤ 'z'

/-- The dash positions of the textual form of a UUID (0-based). -/
def uuidDashPositions : List Nat := [8, 13, 18, 23]

/-- UUID shape of a character sequence: 36 characters, a dash at each dash position and a
hexadecimal digit everywhere else. -/
def isUUIDShaped (cs : List Char) : Bool :=
  cs.length == 36 &&
    (List.range cs.length).all fun i =>
      if i ∈ uuidDashPositions then cs.get? i == some '-'
      else (cs.get? i).any isHexDigit

/-- Lengths of the maximal dash-free runs of a character sequence, left to right. -/
def dashGroups (cs : List Char) : List Nat :=
  (cs.splitOn '-').map List.length

/-- Go map lookup `m[k]` with the comma-ok result, on the list of the map's pairs. -/
def mapLookup (m : List (String × Plugin)) (k : String) : Option Plugin :=
  (m.find? fun e => e.1 == k).map Prod.snd

/-! ## Handshake and capability name -/

/-- C1: the Handshake descriptor is the fixed triple (1, "SFTPGO_PLUGIN_EVENTSEARCHER",
"2b523805-0279-471c-895e-6c0d39002ca4"); its protocol version is exactly 1 and both the cookie
key and the cookie value are non-empty strings. -/
theorem Handshake_fixed_triple :
    Handshake = ⟨1, "SFTPGO_PLUGIN_EVENTSEARCHER", "2b523805-0279-471c-895e-6c0d39002ca4"⟩ ∧
      Handshake.ProtocolVersion = 1 ∧
      Handshake.MagicCookieKey ≠ "" ∧ Handshake.MagicCookieValue ≠ "" := by
  refine ⟨rfl, rfl, ?_, ?_⟩ <;> decide

/-- C2: the magic cookie value of Handshake is UUID-shaped: exactly 36 characters, a dash at
positions 8, 13, 18 and 23, a hexadecimal digit at every other position, that is groups of
8-4-4-4-12 hexadecimal digits. -/
theorem Handshake_cookie_value_uuid_shaped :
    Handshake.MagicCookieValue.length = 36 ∧
      (∀ i ∈ [8, 13, 18, 23], Handshake.MagicCookieValue.toList.get? i = some '-') ∧
      (∀ i, i < 36 → i ∉ [8, 13, 18, 23] →
        ∃ c, Handshake.MagicCookieValue.toList.get? i = some c ∧ isHexDigit c = true) ∧
      isUUIDShaped Handshake.MagicCookieValue.toList = true ∧
      dashGroups Handshake.MagicCookieValue.toList = [8, 4, 4, 4, 12] := by
  refine ⟨by decide, by decide, ?_, by decide, by decide⟩
  intro i hi hn
  interval_cases i <;> first | (exact absurd (by decide) hn) | exact ⟨_, rfl, by decide⟩

/-- C8: PluginName equals "eventsearcher", is non-empty, and every one of its characters is a
lowercase ASCII letter. -/
theorem PluginName_lowercase_identifier :
    PluginName = "eventsearcher" ∧ PluginName ≠ "" ∧ 0 < PluginName.length ∧
      ∀ c ∈ PluginName.toList, isLowerAscii c = true := by
  refine ⟨rfl, by decide, by decide, by decide⟩

/-! ## The plugin registry -/

/-- C3: PluginMap has exactly one entry and its key is PluginName: looking up PluginName finds
an entry, and looking up any other string finds nothing. -/
theorem PluginMap_single_entry :
    PluginMap.length = 1 ∧ PluginMap.map Prod.fst = [PluginName] ∧
      (mapLookup PluginMap PluginName).isSome = true ∧
      ∀ k : String, mapLookup PluginMap k = none ↔ k ≠ PluginName := by
  refine ⟨rfl, rfl, ?_, ?_⟩
  · simp [mapLookup, PluginMap]
  · intro k
    by_cases h : PluginName = k
    · simp [mapLookup, PluginMap, h]
    · have h' : ¬ k = PluginName := fun e => h e.symm
      simp [mapLookup, PluginMap, h, h']

/-- C4, as stated, fails: on a server that already holds a Searcher implementation, and on
a server that is already serving, GRPCServer does not return at all (registration aborts the
process), so it does not return a nil error for every server; a second call on the server
left by a first call is such a case. -/
theorem Plugin_GRPCServer_abort_counterexample :
    Plugin.GRPCServer {} ⟨0⟩ { serve := false, searcher := some { Impl := none } }
        initialPackageVars = none ∧
      Plugin.GRPCServer {} ⟨0⟩ { serve := true, searcher := none } initialPackageVars = none ∧
      (Plugin.GRPCServer {} ⟨0⟩ grpc.NewServer initialPackageVars).bind
        (fun r => Plugin.GRPCServer {} ⟨0⟩ r.2.1 r.2.2) = none ∧
      ¬ ∀ (p : Plugin) (broker : plugin.GRPCBroker) (s : grpc.Server) (g : PackageVars),
          ∃ r, p.GRPCServer broker s g = some r ∧ r.1 = none := by
  refine ⟨rfl, rfl, rfl, ?_⟩
  intro h
  obtain ⟨r, hr, _⟩ := h {} ⟨0⟩ { serve := true, searcher := none } initialPackageVars
  exact Option.noConfusion hr

/-- C4, amended: for every Plugin p, broker and gRPC server s that is not serving and holds no
Searcher implementation yet, GRPCServer returns a nil error and leaves on s exactly one
server adapter, whose wrapped Searcher is exactly p.Impl and which carries no other state: the
outcome is the same for every plugin with the same Impl and every broker. -/
theorem Plugin_GRPCServer_registers_one_adapter (p : Plugin) (broker : plugin.GRPCBroker)
    (s : grpc.Server) (g : PackageVars) (hserve : s.serve = false)
    (hfree : s.searcher = none) :
    ∃ (adapter : GRPCServer) (s' : grpc.Server),
      p.GRPCServer broker s g = some (none, s', g) ∧
        s'.searcher = some adapter ∧ s'.serve = s.serve ∧
        adapter.Impl = p.Impl ∧ adapter = { Impl := p.Impl } ∧
        ∀ (p' : Plugin) (broker' : plugin.GRPCBroker), p'.Impl = p.Impl →
          p'.GRPCServer broker' s g = p.GRPCServer broker s g := by
  cases s
  simp only at hserve hfree
  subst hserve hfree
  refine ⟨{ Impl := p.Impl }, { serve := false, searcher := some { Impl := p.Impl } },
    rfl, rfl, rfl, rfl, rfl, ?_⟩
  intro p' broker' h
  simp [Plugin.GRPCServer, h]

/-- Witness of `Plugin_GRPCServer_registers_one_adapter`: a plugin wrapping `emptySearcher`
on a new server. -/
theorem Plugin_GRPCServer_registers_one_adapter_witness :
    grpc.NewServer.serve = false ∧ grpc.NewServer.searcher = none ∧
      ∃ (adapter : GRPCServer) (s' : grpc.Server),
        Plugin.GRPCServer { Impl := some emptySearcher } ⟨7⟩ grpc.NewServer
            initialPackageVars = some (none, s', initialPackageVars) ∧
          s'.searcher = some adapter ∧ s'.serve = grpc.NewServer.serve ∧
          adapter.Impl = some emptySearcher ∧ adapter = { Impl := some emptySearcher } ∧
          ∀ (p' : Plugin) (broker' : plugin.GRPCBroker), p'.Impl = some emptySearcher →
            p'.GRPCServer broker' grpc.NewServer initialPackageVars =
              Plugin.GRPCServer { Impl := some emptySearcher } ⟨7⟩ grpc.NewServer
                initialPackageVars :=
  ⟨rfl, rfl,
    Plugin_GRPCServer_registers_one_adapter { Impl := some emptySearcher } ⟨7⟩ grpc.NewServer
      initialPackageVars rfl rfl⟩

/-- C5: for every Plugin p, context, broker and client connection c, GRPCClient returns a nil
error together with a non-nil client adapter built on c; the result depends only on c: calls
that differ in the plugin (so in p.Impl), the context, the broker or the package state return
equal values. -/
theorem Plugin_GRPCClient_depends_only_on_conn (p p' : Plugin) (ctx ctx' : context.Context)
    (broker broker' : plugin.GRPCBroker) (c : grpc.ClientConn) (g g' : PackageVars) :
    (p.GRPCClient ctx broker c g).2.1 = none ∧
      (∃ a : GRPCClient, (p.GRPCClient ctx broker c g).1 = some a ∧
        a.client = proto.NewSearcherClient c ∧ a.client.cc = c) ∧
      (p'.GRPCClient ctx' broker' c g').1 = (p.GRPCClient ctx broker c g).1 ∧
      (p'.GRPCClient ctx' broker' c g').2.1 = (p.GRPCClient ctx broker c g).2.1 :=
  ⟨rfl, ⟨_, rfl, rfl, rfl⟩, rfl, rfl⟩

/-- C7: neither GRPCServer nor GRPCClient changes Handshake or PluginMap: for every input and
every state of the package variables, both variables hold the same values after the call as
before it; started from the initial state they still hold the declared Handshake and
PluginMap. GRPCServer has a state after the call exactly when the server accepts the
registration, as a new server does. -/
theorem package_vars_unchanged (p : Plugin) (ctx : context.Context)
    (broker : plugin.GRPCBroker) (s : grpc.Server) (c : grpc.ClientConn) (g : PackageVars) :
    (∀ r, p.GRPCServer broker s g = some r →
        r.2.2.Handshake = g.Handshake ∧ r.2.2.PluginMap = g.PluginMap) ∧
      ((p.GRPCServer broker s g).isSome = (!s.serve && s.searcher.isNone)) ∧
      ((p.GRPCClient ctx broker c g).2.2.Handshake = g.Handshake ∧
        (p.GRPCClient ctx broker c g).2.2.PluginMap = g.PluginMap) ∧
      (∀ r, p.GRPCServer broker s initialPackageVars = some r →
        r.2.2.Handshake = Handshake ∧ r.2.2.PluginMap = PluginMap) ∧
      (∃ r, p.GRPCServer broker grpc.NewServer initialPackageVars = some r ∧
        r.2.2.Handshake = Handshake ∧ r.2.2.PluginMap = PluginMap) ∧
      ((p.GRPCClient ctx broker c initialPackageVars).2.2.Handshake = Handshake ∧
        (p.GRPCClient ctx broker c initialPackageVars).2.2.PluginMap = PluginMap) := by
  have frame : ∀ (g0 : PackageVars) r, p.GRPCServer broker s g0 = some r → r.2.2 = g0 := by
    intro g0 r hr
    unfold Plugin.GRPCServer at hr
    split at hr
    · exact Option.noConfusion hr
    · cases hr
      rfl
  refine ⟨?_, ?_, ⟨rfl, rfl⟩, ?_, ⟨_, rfl, rfl, rfl⟩, ⟨rfl, rfl⟩⟩
  · intro r hr
    rw [frame g r hr]
    exact ⟨rfl, rfl⟩
  · rcases s with ⟨sv, sr⟩
    cases sv <;> cases sr <;> rfl
  · intro r hr
    rw [frame _ r hr]
    exact ⟨rfl, rfl⟩

/-! ## The Order field -/

/-- C6, as stated, fails: `Order` is a Go `int`, and the filters with Order 0, 1 and 2 are all
values of the type, so no two values cover every filter. -/
theorem Order_third_value_counterexample :
    (({ Order := 0 } : CommonSearchParams).wf ∧ ({ Order := 1 } : CommonSearchParams).wf ∧
        ({ Order := 2 } : CommonSearchParams).wf ∧ ({ Order := 2 } : FsEventSearch).wf ∧
        ({ Order := 2 } : FsEventSearch).Order = 2) ∧
      ¬ ∃ a b : Int, ∀ f : CommonSearchParams, f.wf → f.Order = a ∨ f.Order = b := by
  refine ⟨by decide, ?_⟩
  rintro ⟨a, b, h⟩
  have h0 := h { Order := 0 } (by decide)
  have h1 := h { Order := 1 } (by decide)
  have h2 := h { Order := 2 } (by decide)
  simp only at h0 h1 h2
  omega

/-- C6, amended: the Order field of every search filter is an integer flag that the filter
types do not restrict: every Go `int` value is the Order of some CommonSearchParams,
FsEventSearch, ProviderEventSearch and LogEventSearch value. -/
theorem Order_carries_any_int (v : Int) (hv : inInt v) :
    (∃ f : CommonSearchParams, f.wf ∧ f.Order = v) ∧
      (∃ f : FsEventSearch, f.wf ∧ f.Order = v) ∧
      (∃ f : ProviderEventSearch, f.wf ∧ f.Order = v) ∧
      (∃ f : LogEventSearch, f.wf ∧ f.Order = v) := by
  have hz : inInt64 0 := by decide
  have hc : ({ Order := v } : CommonSearchParams).wf := ⟨hz, hz, hz, hv⟩
  exact ⟨⟨{ Order := v }, hc, rfl⟩,
    ⟨{ Order := v }, ⟨hc, by simp, hz⟩, rfl⟩,
    ⟨{ Order := v }, hc, rfl⟩,
    ⟨{ Order := v }, ⟨hc, by simp⟩, rfl⟩⟩

/-- Witness of `Order_carries_any_int` at the third value 2. -/
theorem Order_carries_any_int_witness :
    inInt 2 ∧
      ((∃ f : CommonSearchParams, f.wf ∧ f.Order = 2) ∧
        (∃ f : FsEventSearch, f.wf ∧ f.Order = 2) ∧
        (∃ f : ProviderEventSearch, f.wf ∧ f.Order = 2) ∧
        (∃ f : LogEventSearch, f.wf ∧ f.Order = 2)) :=
  ⟨by decide, Order_carries_any_int 2 (by decide)⟩
